import Mathlib

/-!
Shallow embedding of the mcp-devop repository (src/server.py and
src/gdrive_mcp_server.py) for verifying its specification.

The embedding treats the remote cloud services as environments supplying
the outcome of each external call (`Except String _`: `ok` a response, or
`error` carrying the message of a raised exception), and translates each
tool operation body literally.  JSON serialization (`json.dumps`) is
abstracted: tools return structured values rather than rendered JSON
strings, with the literal error-marker strings kept verbatim.
-/

set_option autoImplicit false

namespace McpDevop

/-! ## CloudWatch Logs Insights query poller (src/server.py, run_cloudwatch_logs_query) -/

/-- One field/value pair of a Logs Insights result row, as returned by
`get_query_results` (a dict with keys `field` and `value`). -/
structure LogField where
  field : String
  value : String
deriving Repr, DecidableEq

/-- The `statistics` dict of a `get_query_results` response; each key may be
absent, and the code defaults an absent key to 0 via
`response.get(...).get(key, 0)`. -/
structure QueryStatistics where
  recordsMatched : Option Nat
  recordsScanned : Option Nat
  bytesScanned : Option Nat
deriving Repr, DecidableEq

/-- A `get_query_results` response: a `status` string, an optional `results`
list of rows (each a list of field/value pairs), optional `statistics`. -/
structure QueryResponse where
  status : String
  results : Option (List (List LogField))
  statistics : Option QueryStatistics
deriving Repr, DecidableEq

/-- Python dict assignment `d[k] = v` on a dict represented as an insertion
-ordered association list: an existing key keeps its position and gets the
new value, a new key is appended at the end. -/
def dictInsert : List (String × String) → String → String → List (String × String)
  | [], k, v => [(k, v)]
  | (k2, v2) :: rest, k, v =>
      if k2 == k then (k2, v) :: rest else (k2, v2) :: dictInsert rest k v

/-- Python dict lookup `d.get(k)` on the association-list representation. -/
def dictLookup : List (String × String) → String → Option String
  | [], _ => none
  | (k2, v2) :: rest, k => if k2 == k then some v2 else dictLookup rest k

/-- The per-row loop of the Complete branch of `run_cloudwatch_logs_query`:
for each field of the row, assign `result_dict[field.field] = field.value`
in a single left-to-right pass. -/
def rowToDict (row : List LogField) : List (String × String) :=
  row.foldl (fun d f => dictInsert d f.field f.value) []

/-- The value of the LAST pair of `row` whose field name is `k`, if any
(specification-side characterization of last-write-wins). -/
def lastValue : List LogField → String → Option String
  | [], _ => none
  | f :: rest, k =>
      match lastValue rest k with
      | some v => some v
      | none => if f.field == k then some f.value else none

/-- The statistics triple (recordsMatched, recordsScanned, bytesScanned)
with every missing component defaulted to 0, mirroring the nested
`.get` chain with default 0 in the source. -/
def statsTriple (s : Option QueryStatistics) : Nat × Nat × Nat :=
  ((s.bind QueryStatistics.recordsMatched).getD 0,
   (s.bind QueryStatistics.recordsScanned).getD 0,
   (s.bind QueryStatistics.bytesScanned).getD 0)

/-- The structured value `run_cloudwatch_logs_query` serializes on the two
normal-return paths after polling ends: either the Complete payload
(statistics plus the transformed rows) or the object with keys `status`
and `error` built on any other final status. -/
inductive QueryOutput where
  | complete (statistics : Nat × Nat × Nat) (results : List (List (String × String)))
  | incomplete (status : String) (error : String)
deriving Repr, DecidableEq

/-- The result rows carried by a `QueryOutput`; the incomplete object has no
`results` key at all. -/
def QueryOutput.resultRows : QueryOutput → List (List (String × String))
  | .complete _ rs => rs
  | .incomplete _ _ => []

/-- The post-poll formatting of the final `get_query_results` response
(src/server.py lines 552-575): on status `Complete`, map every row through
the dict-building pass and default missing statistics to 0; on any other
status, report it with the fixed error marker. -/
def formatQueryResult (r : QueryResponse) : QueryOutput :=
  if r.status = "Complete" then
    .complete (statsTriple r.statistics) ((r.results.getD []).map rowToDict)
  else
    .incomplete r.status "Query did not complete successfully"

/-- True exactly when a fetch outcome is a successfully returned response
whose status is `Running`.  A raised exception is not `Running`: it aborts
the loop (control jumps to the handler of the surrounding `try`). -/
def isRunning : Except String QueryResponse → Bool
  | .ok r => r.status == "Running"
  | .error _ => false

instance {ε α : Type} [DecidableEq ε] [DecidableEq α] : DecidableEq (Except ε α) :=
  fun a b =>
    match a, b with
    | .error x, .error y =>
        if h : x = y then .isTrue (by rw [h])
        else .isFalse (fun hc => h (by cases hc; rfl))
    | .error _, .ok _ => .isFalse (fun hc => by cases hc)
    | .ok _, .error _ => .isFalse (fun hc => by cases hc)
    | .ok x, .ok y =>
        if h : x = y then .isTrue (by rw [h])
        else .isFalse (fun hc => h (by cases hc; rfl))

/-- State of the poll loop: the last fetch outcome (`none` before the first
fetch, matching the initialization `response = None`) and how many
`get_query_results` calls have been issued so far. -/
structure PollState where
  response : Option (Except String QueryResponse)
  fetches : Nat
deriving Repr, DecidableEq

/-- The loop guard: `response is None or` the status of `response` equals
`Running`.  A recorded exception makes the guard false: the Python loop is
over at that point because the exception transferred control out of it. -/
def pollCond : PollState → Bool
  | ⟨none, _⟩ => true
  | ⟨some o, _⟩ => isRunning o

/-- One loop iteration: sleep one second (no observable effect in the
model), then fetch the query results; `fetch i` is the outcome of the i-th
fetch, counting from 0. -/
def pollStep (fetch : Nat → Except String QueryResponse) (s : PollState) : PollState :=
  ⟨some (fetch s.fetches), s.fetches + 1⟩

/-- The poll loop run for up to `n` iterations: iterate `pollStep` while
`pollCond` holds.  `pollRun fetch n` is the exact state of the Python loop
after it has had `n` opportunities to iterate. -/
def pollRun (fetch : Nat → Except String QueryResponse) : Nat → PollState
  | 0 => ⟨none, 0⟩
  | n + 1 =>
      if pollCond (pollRun fetch n) then pollStep fetch (pollRun fetch n)
      else pollRun fetch n

/-- The request built for the `start_query` call (src/server.py lines
528-540). -/
structure StartQueryRequest where
  logGroupName : String
  startTime : Int
  endTime : Int
  queryString : String
  limit : Nat
deriving Repr, DecidableEq

/-- Construction of the `start_query` request: `end_time` is the current
time, `start_time` subtracts `hours * 3600` seconds, and `limit=1000` is
hard-coded with no caller-controlled input. -/
def buildStartQueryRequest (now : Int) (log_group_name : String) (query : String)
    (hours : Int) : StartQueryRequest :=
  { logGroupName := log_group_name
    startTime := now - hours * 3600
    endTime := now
    queryString := query
    limit := 1000 }

/-- Outcome of one whole MCP tool call: in the source both branches return a
string; we keep the successful payload structured and the caught-exception
branch as the literal error text. -/
inductive ToolResult where
  | ok (out : QueryOutput)
  | errText (msg : String)
deriving Repr, DecidableEq

/-- The tool `run_cloudwatch_logs_query` (src/server.py lines 519-578) over
an environment giving the submission outcome and each fetch outcome.
`fuel` bounds how many loop iterations we observe; the result is `none`
when the loop is still running after `fuel` iterations (the Python loop
has no bound of its own).  Any raised exception is caught by the single
surrounding `try` and returned as the error text. -/
def run_cloudwatch_logs_query
    (startQuery : StartQueryRequest → Except String String)
    (getQueryResults : Nat → Except String QueryResponse)
    (now : Int) (log_group_name : String) (query : String) (hours : Int)
    (fuel : Nat) : Option ToolResult :=
  match startQuery (buildStartQueryRequest now log_group_name query hours) with
  | .error e => some (.errText ("Error running CloudWatch Logs query: " ++ e))
  | .ok _query_id =>
      let s := pollRun getQueryResults fuel
      if pollCond s then none
      else
        match s.response with
        | some (.error e) => some (.errText ("Error running CloudWatch Logs query: " ++ e))
        | some (.ok r) => some (.ok (formatQueryResult r))
        | none => none

/-! ## list_s3_buckets (src/server.py lines 57-65) -/

/-- One entry of the `Buckets` list of an S3 `list_buckets` response. -/
structure S3Bucket where
  Name : String
deriving Repr, DecidableEq

/-- The S3 `list_buckets` response shape used by the tool. -/
structure S3ListBucketsResponse where
  Buckets : List S3Bucket
deriving Repr, DecidableEq

/-- Result of an MCP tool that returns a string either way: the serialized
payload (kept structured here) or the caught-exception error text. -/
inductive S3ToolResult where
  | payload (buckets : List String)
  | errorText (msg : String)
deriving Repr, DecidableEq

/-- The tool `list_s3_buckets`: one `list_buckets` call inside a
`try`/`except` pair; the names are collected in order, and any exception is
returned as text with the fixed `Error listing S3 buckets` marker. -/
def list_s3_buckets (response : Except String S3ListBucketsResponse) : S3ToolResult :=
  match response with
  | .ok resp => .payload (resp.Buckets.map S3Bucket.Name)
  | .error e => .errorText ("Error listing S3 buckets: " ++ e)

/-! ## Google Drive/Sheets FastAPI endpoints (src/gdrive_mcp_server.py) -/

/-- An HTTPException value as raised by the endpoint handlers. -/
structure HTTPExceptionVal where
  status_code : Nat
  detail : String
deriving Repr, DecidableEq

/-- The validated SearchRequest body: `pageSize` is an optional integer
defaulting to 10, so an explicitly-null value reaches the handler as
`none`. -/
structure SearchRequest where
  query : String
  pageToken : Option String
  pageSize : Option Int
deriving Repr, DecidableEq

/-- Python `min(x, 100)` where `x` is an optional integer: a `None` operand
raises a TypeError (caught by the except clause of the handler). -/
def pyMinOpt (x : Option Int) (bound : Int) : Except String Int :=
  match x with
  | none => .error "TypeError: comparison between NoneType and int"
  | some a => .ok (min a bound)

/-- The request handed to the `files().list(...)` Drive call. -/
structure FilesListRequest where
  q : String
  pageSize : Int
  pageToken : Option String
deriving Repr, DecidableEq

/-- One file entry (id, name, mimeType) of a Drive listing. -/
structure DriveFile where
  id : String
  name : String
  mimeType : String
deriving Repr, DecidableEq

/-- The Drive `files.list` response: both keys may be absent, and the
handler defaults them via `.get`. -/
structure FilesListResponse where
  files : Option (List DriveFile)
  nextPageToken : Option String
deriving Repr, DecidableEq

/-- The JSON body a successful `gdrive_search` returns. -/
structure SearchOut where
  files : List DriveFile
  nextPageToken : Option String
deriving Repr, DecidableEq

/-- Construction of the `files().list` request from the validated body
(src/gdrive_mcp_server.py lines 64-69): the query string is forwarded, the
page size is `min(request.pageSize, 100)`, the page token is forwarded. -/
def filesListRequest (req : SearchRequest) : Except String FilesListRequest :=
  match pyMinOpt req.pageSize 100 with
  | .error e => .error e
  | .ok ps => .ok { q := req.query, pageSize := ps, pageToken := req.pageToken }

/-- The endpoint `gdrive_search` (src/gdrive_mcp_server.py lines 58-76):
obtain credentials, build the service, issue one Drive listing call; ANY
exception in the `try` block is re-raised as an HTTPException with status
code 500 and the exception text as detail — the handler raises
(`Except.error` here), it does not return a textual result value. -/
def gdrive_search (credsOutcome : Except String Unit)
    (filesList : FilesListRequest → Except String FilesListResponse)
    (req : SearchRequest) : Except HTTPExceptionVal SearchOut :=
  match credsOutcome with
  | .error e => .error ⟨500, e⟩
  | .ok _ =>
      match filesListRequest req with
      | .error e => .error ⟨500, e⟩
      | .ok lr =>
          match filesList lr with
          | .error e => .error ⟨500, e⟩
          | .ok resp => .ok { files := resp.files.getD [], nextPageToken := resp.nextPageToken }

/-! ## get_google_credentials (src/gdrive_mcp_server.py lines 21-37) -/

/-- A Google OAuth credential as the function observes it: the `valid` and
`expired` properties, the `refresh_token` attribute (`None` or a string;
Python truthiness makes the empty string falsy), plus an opaque token
payload distinguishing credential values. -/
structure Creds where
  valid : Bool
  expired : Bool
  refresh_token : Option String
  token : String
deriving Repr, DecidableEq

/-- Python truthiness of an optional string. -/
def truthyStr : Option String → Bool
  | none => false
  | some s => !(s == "")

/-- Environment of one `get_google_credentials` call: the parsed content of
the token.json cache (`none` when the file does not exist), and the
outcomes of the two possible authorization-server interactions — the
refresh call and the interactive local-server flow — each either a
resulting credential or a raised exception message. -/
structure AuthEnv where
  tokenFile : Option Creds
  refreshOutcome : Except String Creds
  flowOutcome : Except String Creds
deriving Repr, DecidableEq

/-- What one `get_google_credentials` call did: the returned credential or
the propagated exception, the content of the token.json cache afterwards,
and which authorization-server interactions were performed. -/
structure AuthResult where
  result : Except String Creds
  tokenFileAfter : Option Creds
  refreshCalled : Bool
  flowCalled : Bool
deriving Repr, DecidableEq

/-- The function `get_google_credentials`: load the cache if present; if the
credential is missing or not valid, refresh when it is expired with a
truthy refresh token, otherwise run the interactive flow; after either
succeeds, write the credential to the token.json cache; exceptions from
refresh/flow propagate before any write. -/
def get_google_credentials (env : AuthEnv) : AuthResult :=
  match env.tokenFile with
  | some c =>
      if c.valid then
        { result := .ok c, tokenFileAfter := env.tokenFile
          refreshCalled := false, flowCalled := false }
      else if c.expired && truthyStr c.refresh_token then
        match env.refreshOutcome with
        | .error e =>
            { result := .error e, tokenFileAfter := env.tokenFile
              refreshCalled := true, flowCalled := false }
        | .ok c2 =>
            { result := .ok c2, tokenFileAfter := some c2
              refreshCalled := true, flowCalled := false }
      else
        match env.flowOutcome with
        | .error e =>
            { result := .error e, tokenFileAfter := env.tokenFile
              refreshCalled := false, flowCalled := true }
        | .ok c2 =>
            { result := .ok c2, tokenFileAfter := some c2
              refreshCalled := false, flowCalled := true }
  | none =>
      match env.flowOutcome with
      | .error e =>
          { result := .error e, tokenFileAfter := env.tokenFile
            refreshCalled := false, flowCalled := true }
      | .ok c2 =>
          { result := .ok c2, tokenFileAfter := some c2
            refreshCalled := false, flowCalled := true }

/-! ## Concrete fixtures used by witness theorems -/

/-- A response with status `Running` and no payload. -/
def runningResp : QueryResponse := ⟨"Running", none, none⟩

/-- A response with status `Failed` and no payload. -/
def failedResp : QueryResponse := ⟨"Failed", none, none⟩

/-- A response with status `Cancelled` and no payload. -/
def cancelledResp : QueryResponse := ⟨"Cancelled", none, none⟩

/-- A response with status `Complete` and one row with a duplicated field
name. -/
def completeResp : QueryResponse :=
  ⟨"Complete", some [[⟨"x", "1"⟩, ⟨"x", "2"⟩]], none⟩

/-- Fetch sequence Running, Running, Failed, Failed, ... -/
def fetchRRF : Nat → Except String QueryResponse :=
  fun i => if i < 2 then .ok runningResp else .ok failedResp

/-- Fetch sequence that reports Running forever. -/
def fetchAlwaysRunning : Nat → Except String QueryResponse :=
  fun _ => .ok runningResp

/-- Fetch sequence whose very first status is Cancelled. -/
def fetchCancelFirst : Nat → Except String QueryResponse :=
  fun _ => .ok cancelledResp

/-- Fetch sequence: Running once, then every further fetch raises. -/
def fetchThrottle : Nat → Except String QueryResponse :=
  fun i => if i = 0 then .ok runningResp else .error "ThrottlingException"

/-- A submission that succeeds with a fixed query id. -/
def submitOk : StartQueryRequest → Except String String :=
  fun _ => .ok "query-id"

/-- A cached credential that is still valid. -/
def cachedValidCreds : Creds := ⟨true, false, some "refresh-1", "access-1"⟩

/-- A cached credential that is expired but has a refresh token. -/
def expiredCreds : Creds := ⟨false, true, some "refresh-1", "access-1"⟩

/-- The credential a successful refresh returns. -/
def freshCreds : Creds := ⟨true, false, some "refresh-1", "access-2"⟩

/-- Environment with a valid cached credential. -/
def envValid : AuthEnv := ⟨some cachedValidCreds, .error "unused", .error "unused"⟩

/-- Environment with an expired cached credential and an accepting
authorization server. -/
def envRefreshOk : AuthEnv := ⟨some expiredCreds, .ok freshCreds, .error "unused"⟩

/-- Environment with an expired cached credential and a rejecting
authorization server. -/
def envRefreshFail : AuthEnv :=
  ⟨some expiredCreds, .error "invalid_grant: token expired or revoked", .error "unused"⟩

/-! ## Helper lemmas -/

/-- While every fetch so far said Running, the loop has iterated every time
it could: after `n` opportunities it has issued exactly `n` fetches and its
guard still holds. -/
lemma pollRun_all_running (fetch : Nat → Except String QueryResponse) :
    ∀ n, (∀ j, j < n → isRunning (fetch j) = true) →
      (pollRun fetch n).fetches = n ∧ pollCond (pollRun fetch n) = true := by
  intro n
  induction n with
  | zero => intro _; exact ⟨rfl, rfl⟩
  | succ n ih =>
      intro h
      obtain ⟨hf, hc⟩ := ih (fun j hj => h j (Nat.lt_succ_of_lt hj))
      have hstep : pollRun fetch (n + 1) = pollStep fetch (pollRun fetch n) := by
        simp [pollRun, hc]
      refine ⟨?_, ?_⟩
      · rw [hstep]; simp [pollStep, hf]
      · rw [hstep]
        simp [pollStep, pollCond, hf]
        exact h n (Nat.lt_succ_self n)

/-- Once the guard is false the loop never moves again. -/
lemma pollRun_stable (fetch : Nat → Except String QueryResponse) (n : Nat)
    (h : pollCond (pollRun fetch n) = false) :
    ∀ m, n ≤ m → pollRun fetch m = pollRun fetch n := by
  intro m hm
  induction m with
  | zero =>
      have hn : n = 0 := Nat.le_zero.mp hm
      rw [hn]
  | succ m ih =>
      rcases Nat.eq_or_lt_of_le hm with heq | hlt
      · rw [heq]
      · have hm2 : n ≤ m := Nat.lt_succ_iff.mp hlt
        have heqm := ih hm2
        show (if pollCond (pollRun fetch m) then pollStep fetch (pollRun fetch m)
              else pollRun fetch m) = pollRun fetch n
        rw [heqm, h, if_neg (by simp)]

/-- If the first `k` fetches say Running and the k-th fetch outcome is not
Running (a terminal status or a raised exception), then from the (k+1)-st
opportunity on the loop state is frozen at exactly k+1 fetches with that
outcome recorded. -/
lemma pollRun_stops (fetch : Nat → Except String QueryResponse) (k : Nat)
    (hrun : ∀ j, j < k → isRunning (fetch j) = true)
    (hk : isRunning (fetch k) = false) :
    ∀ n, k + 1 ≤ n → pollRun fetch n = ⟨some (fetch k), k + 1⟩ := by
  obtain ⟨hf, hc⟩ := pollRun_all_running fetch k hrun
  have hk1 : pollRun fetch (k + 1) = ⟨some (fetch k), k + 1⟩ := by
    have : pollRun fetch (k + 1) = pollStep fetch (pollRun fetch k) := by
      simp [pollRun, hc]
    rw [this]
    simp [pollStep, hf]
  have hcond : pollCond (pollRun fetch (k + 1)) = false := by
    rw [hk1]
    simpa [pollCond] using hk
  intro n hn
  rw [pollRun_stable fetch (k + 1) hcond n hn, hk1]

/-- Looking up `k2` after a dict assignment of `v` to `k`: the assigned
value if the keys agree, the previous binding otherwise. -/
lemma dictLookup_dictInsert (d : List (String × String)) (k v k2 : String) :
    dictLookup (dictInsert d k v) k2 =
      if k2 == k then some v else dictLookup d k2 := by
  induction d with
  | nil =>
      by_cases h : k2 = k
      · simp [dictInsert, dictLookup, h]
      · simp [dictInsert, dictLookup, h, Ne.symm h]
  | cons p rest ih =>
      obtain ⟨kp, vp⟩ := p
      by_cases hpk : kp = k
      · subst hpk
        by_cases h : k2 = kp
        · simp [dictInsert, dictLookup, h]
        · simp [dictInsert, dictLookup, h, Ne.symm h]
      · by_cases h : kp = k2
        · subst h
          simp [dictInsert, dictLookup, hpk, Ne.symm hpk]
        · simp [dictInsert, dictLookup, hpk, h, Ne.symm h, ih]

/-- Folding dict assignments of a row over an arbitrary starting dict: the
lookup is the last value the row writes to the key, falling back to the
starting dict. -/
lemma dictLookup_foldl (row : List LogField) (k : String) :
    ∀ d, dictLookup (row.foldl (fun d f => dictInsert d f.field f.value) d) k =
      match lastValue row k with
      | some v => some v
      | none => dictLookup d k := by
  induction row with
  | nil => intro d; simp [lastValue]
  | cons f rest ih =>
      intro d
      simp only [List.foldl_cons]
      rw [ih]
      cases hl : lastValue rest k with
      | some v => simp [lastValue, hl]
      | none =>
          simp only [lastValue, hl, dictLookup_dictInsert]
          by_cases h : f.field = k
          · simp [h]
          · simp [h, Ne.symm h]

/-- The dict built from a row maps each key to the last value written for
it: later duplicate field names overwrite earlier ones. -/
lemma dictLookup_rowToDict (row : List LogField) (k : String) :
    dictLookup (rowToDict row) k = lastValue row k := by
  unfold rowToDict
  rw [dictLookup_foldl]
  cases lastValue row k <;> simp [dictLookup]

/-! ## Claim theorems -/

/-- Claim C1: the poll loop of run_cloudwatch_logs_query fetches query
results while and only while the last fetched response is absent or has
status Running, and it stops at the first fetch whose status is any other
value: if the first k observations are Running and the k-th (0-based)
fetch returns a response whose status is not Running, then the loop
issues one fetch per iteration up to k+1 fetches, and from then on it is
permanently stopped at exactly k+1 fetches with that response recorded
and a false loop guard — it never retries.  Instantiated at the sequence
Running, Running, Failed this gives exactly 3 fetches. -/
theorem poll_loop_stops_at_first_non_running
    (fetch : Nat → Except String QueryResponse) (k : Nat) (r : QueryResponse)
    (hrun : ∀ j, j < k → isRunning (fetch j) = true)
    (hk : fetch k = .ok r) (hr : r.status ≠ "Running") :
    (∀ n, n ≤ k + 1 → (pollRun fetch n).fetches = n) ∧
    (∀ n, k + 1 ≤ n → pollRun fetch n = ⟨some (.ok r), k + 1⟩) ∧
    pollCond ⟨some (Except.ok r), k + 1⟩ = false := by
  have hkR : isRunning (fetch k) = false := by
    rw [hk]
    simpa [isRunning] using hr
  have hstops := pollRun_stops fetch k hrun hkR
  refine ⟨?_, ?_, ?_⟩
  · intro n hn
    rcases Nat.eq_or_lt_of_le hn with heq | hlt
    · rw [heq, hstops (k + 1) (Nat.le_refl _)]
    · have hnk : n ≤ k := Nat.lt_succ_iff.mp hlt
      exact (pollRun_all_running fetch n (fun j hj => hrun j (Nat.lt_of_lt_of_le hj hnk))).1
  · intro n hn
    rw [hstops n hn, hk]
  · simpa [pollCond, isRunning] using hr

/-- Claim C1 witness: for the observation sequence Running, Running, Failed
the poller performs exactly 3 status fetches and is then permanently
stopped (the state after 10 opportunities is unchanged). -/
theorem poll_loop_stops_at_first_non_running_witness :
    (pollRun fetchRRF 3).fetches = 3 ∧
    pollRun fetchRRF 10 = ⟨some (.ok failedResp), 3⟩ :=
  ⟨(poll_loop_stops_at_first_non_running fetchRRF 2 failedResp
      (by decide) rfl (by decide)).1 3 (by decide),
   (poll_loop_stops_at_first_non_running fetchRRF 2 failedResp
      (by decide) rfl (by decide)).2.1 10 (by decide)⟩

/-- Claim C3: the poll loop has no client-side timeout or iteration bound:
if the remote service reports Running on every fetch, then after every
number n of loop opportunities the loop has issued exactly n fetches and
its guard still holds, so it never terminates. -/
theorem poll_loop_never_terminates_when_always_running
    (fetch : Nat → Except String QueryResponse)
    (h : ∀ i, isRunning (fetch i) = true) :
    ∀ n, (pollRun fetch n).fetches = n ∧ pollCond (pollRun fetch n) = true :=
  fun n => pollRun_all_running fetch n (fun j _ => h j)

/-- Claim C3 witness: with every fetch Running, after 7 iterations the
poller has issued 7 fetches and is still going. -/
theorem poll_loop_never_terminates_witness :
    (pollRun fetchAlwaysRunning 7).fetches = 7 ∧
    pollCond (pollRun fetchAlwaysRunning 7) = true :=
  poll_loop_never_terminates_when_always_running fetchAlwaysRunning (fun _ => rfl) 7

/-- Claim C2: on final status Complete, run_cloudwatch_logs_query returns
the rows in their original order, each row transformed by a single
left-to-right pass building a field-to-value mapping in which a later
duplicate field name overwrites an earlier one (the row x:1, x:2 yields
the single binding x:2), together with the statistics triple defaulting
each missing statistic to 0. -/
theorem complete_query_formatting
    (r : QueryResponse) (h : r.status = "Complete") :
    formatQueryResult r =
      .complete (statsTriple r.statistics) ((r.results.getD []).map rowToDict) ∧
    (∀ row k, dictLookup (rowToDict row) k = lastValue row k) ∧
    rowToDict [⟨"x", "1"⟩, ⟨"x", "2"⟩] = [("x", "2")] ∧
    statsTriple none = (0, 0, 0) := by
  refine ⟨by simp [formatQueryResult, h], fun row k => dictLookup_rowToDict row k, ?_, rfl⟩
  decide

/-- Claim C2 witness: a Complete response with the single row x:1, x:2 is
formatted to the Complete payload with the collapsed row x:2 and
all-zero statistics. -/
theorem complete_query_formatting_witness :
    formatQueryResult completeResp = .complete (0, 0, 0) [[("x", "2")]] := by
  have h := (complete_query_formatting completeResp rfl).1
  simpa [completeResp, statsTriple, rowToDict, dictInsert] using h

/-- Claim C4: when the final observed status of a query is any value other
than Complete (and other than Running, which would continue the loop),
run_cloudwatch_logs_query returns normally — a `some (.ok _)` result, not
a raised exception and not the caught-exception error text — carrying
exactly that status together with the marker text
`Query did not complete successfully`, and the returned object has no
result rows. -/
theorem non_complete_status_reported_not_raised
    (startQuery : StartQueryRequest → Except String String)
    (fetch : Nat → Except String QueryResponse)
    (now : Int) (lg q : String) (hours : Int) (fuel : Nat)
    (qid : String) (k : Nat) (r : QueryResponse)
    (hsub : startQuery (buildStartQueryRequest now lg q hours) = .ok qid)
    (hrun : ∀ j, j < k → isRunning (fetch j) = true)
    (hk : fetch k = .ok r)
    (hr : r.status ≠ "Running") (hc : r.status ≠ "Complete")
    (hfuel : k + 1 ≤ fuel) :
    run_cloudwatch_logs_query startQuery fetch now lg q hours fuel =
      some (.ok (.incomplete r.status "Query did not complete successfully")) ∧
    (QueryOutput.incomplete r.status "Query did not complete successfully").resultRows
      = [] := by
  have hkR : isRunning (fetch k) = false := by
    rw [hk]
    simpa [isRunning] using hr
  have hstate : pollRun fetch fuel = ⟨some (.ok r), k + 1⟩ := by
    rw [pollRun_stops fetch k hrun hkR fuel hfuel, hk]
  have hcond : pollCond (pollRun fetch fuel) = false := by
    rw [hstate]
    simpa [pollCond, isRunning] using hr
  refine ⟨?_, rfl⟩
  simp only [run_cloudwatch_logs_query, hsub, hstate]
  rw [hstate] at hcond
  simp [hcond, formatQueryResult, hc]

/-- Claim C4 witness: a query whose first status fetch says Cancelled is
reported as the incomplete object with status Cancelled. -/
theorem non_complete_status_reported_witness :
    run_cloudwatch_logs_query submitOk fetchCancelFirst 0 "group" "fields x" 24 1 =
      some (.ok (.incomplete "Cancelled" "Query did not complete successfully")) :=
  (non_complete_status_reported_not_raised submitOk fetchCancelFirst 0 "group"
      "fields x" 24 1 "query-id" 0 cancelledResp rfl
      (fun j hj => absurd hj (Nat.not_lt_zero j)) rfl
      (by decide) (by decide) (Nat.le_refl 1)).1

/-- Claim C10: every invocation of run_cloudwatch_logs_query submits the
query with the hard-coded result limit 1000, whatever the caller-supplied
log group, query text, time-reference and hours are; no caller input can
change the bound. -/
theorem start_query_limit_always_1000 :
    (∀ (now : Int) (lg q : String) (hours : Int),
       (buildStartQueryRequest now lg q hours).limit = 1000) ∧
    (∀ (now : Int) (lg q : String) (hours : Int)
       (now2 : Int) (lg2 q2 : String) (hours2 : Int),
       (buildStartQueryRequest now lg q hours).limit =
         (buildStartQueryRequest now2 lg2 q2 hours2).limit) :=
  ⟨fun _ _ _ _ => rfl, fun _ _ _ _ _ _ _ _ => rfl⟩

/-- Claim C9: for every gdrive_search request that supplies a page size,
the page size passed to the Drive listing call is the minimum of the
requested pageSize and 100 — a request for more than 100 is silently
capped at 100, a request for at most 100 is forwarded unchanged — and
query string and page token are forwarded as given. -/
theorem search_page_size_capped_at_100
    (q : String) (tok : Option String) (n : Int) :
    filesListRequest ⟨q, tok, some n⟩ = .ok ⟨q, min n 100, tok⟩ ∧
    (100 < n → min n 100 = 100) ∧
    (n ≤ 100 → min n 100 = n) := by
  refine ⟨rfl, fun h => min_eq_right (le_of_lt h), fun h => min_eq_left h⟩

/-- Claim C9 witness: a request for 250 is capped at 100 and a request for
7 is forwarded unchanged. -/
theorem search_page_size_capped_witness :
    filesListRequest ⟨"name contains report", none, some 250⟩ =
      .ok ⟨"name contains report", min 250 100, none⟩ ∧
    min (250 : Int) 100 = 100 ∧
    min (7 : Int) 100 = 7 :=
  ⟨(search_page_size_capped_at_100 "name contains report" none 250).1,
   (search_page_size_capped_at_100 "name contains report" none 250).2.1 (by decide),
   (search_page_size_capped_at_100 "name contains report" none 7).2.2 (by decide)⟩

/-- Claim C6: when the token cache holds a valid (unexpired) credential,
get_google_credentials returns that credential unchanged, performs neither
the refresh call nor the interactive flow, and leaves the token cache file
exactly as it was. -/
theorem cached_valid_credential_returned_unchanged
    (env : AuthEnv) (c : Creds)
    (hcache : env.tokenFile = some c) (hvalid : c.valid = true) :
    get_google_credentials env =
      { result := .ok c, tokenFileAfter := env.tokenFile
        refreshCalled := false, flowCalled := false } := by
  simp [get_google_credentials, hcache, hvalid]

/-- Claim C6 witness: the concrete environment with a valid cached
credential returns it with no authorization-server interaction and the
cache intact. -/
theorem cached_valid_credential_witness :
    get_google_credentials envValid =
      { result := .ok cachedValidCreds, tokenFileAfter := some cachedValidCreds
        refreshCalled := false, flowCalled := false } :=
  cached_valid_credential_returned_unchanged envValid cachedValidCreds rfl rfl

/-- Claim C7: when the cached credential is invalid and expired with a
(truthy) refresh token present and the authorization server accepts the
refresh with a new unexpired credential, get_google_credentials returns
that new credential, and the token cache file afterwards holds exactly the
credential returned (the prior value is overwritten). -/
theorem expired_credential_refreshed_and_persisted
    (env : AuthEnv) (c c2 : Creds)
    (hcache : env.tokenFile = some c) (hvalid : c.valid = false)
    (hexp : c.expired = true) (htok : truthyStr c.refresh_token = true)
    (hrefresh : env.refreshOutcome = .ok c2) (hfresh : c2.expired = false) :
    get_google_credentials env =
      { result := .ok c2, tokenFileAfter := some c2
        refreshCalled := true, flowCalled := false } ∧
    c2.expired = false := by
  refine ⟨?_, hfresh⟩
  simp [get_google_credentials, hcache, hvalid, hexp, htok, hrefresh]

/-- Claim C7 witness: the concrete expired-credential environment with an
accepting server returns the fresh credential and persists it. -/
theorem expired_credential_refreshed_witness :
    get_google_credentials envRefreshOk =
      { result := .ok freshCreds, tokenFileAfter := some freshCreds
        refreshCalled := true, flowCalled := false } :=
  (expired_credential_refreshed_and_persisted envRefreshOk expiredCreds freshCreds
      rfl rfl rfl rfl rfl rfl).1

/-- Claim C8: when the cached credential is invalid and expired with a
refresh token present but the authorization server rejects the refresh,
get_google_credentials fails with the propagated authorization error and
performs no write to the token cache file: the cache afterwards equals the
cache before. -/
theorem refresh_rejection_fails_cache_untouched
    (env : AuthEnv) (c : Creds) (e : String)
    (hcache : env.tokenFile = some c) (hvalid : c.valid = false)
    (hexp : c.expired = true) (htok : truthyStr c.refresh_token = true)
    (hrefresh : env.refreshOutcome = .error e) :
    get_google_credentials env =
      { result := .error e, tokenFileAfter := env.tokenFile
        refreshCalled := true, flowCalled := false } := by
  simp [get_google_credentials, hcache, hvalid, hexp, htok, hrefresh]

/-- Claim C8 witness: the concrete expired-credential environment with a
rejecting server propagates the error and leaves the cache holding the old
expired credential. -/
theorem refresh_rejection_witness :
    get_google_credentials envRefreshFail =
      { result := .error "invalid_grant: token expired or revoked"
        tokenFileAfter := some expiredCreds
        refreshCalled := true, flowCalled := false } :=
  refresh_rejection_fails_cache_untouched envRefreshFail expiredCreds
    "invalid_grant: token expired or revoked" rfl rfl rfl rfl rfl

/-- Claim C5 counterexample: gdrive_search does NOT return a textual error
result when its external call fails — it raises: with credentials obtained
and the Drive listing call failing, the handler ends in a raised
HTTPException (the error side of its result), so an exception does escape
this tool operation. -/
theorem gdrive_search_raises_on_failure :
    gdrive_search (.ok ()) (fun _ => .error "HttpError 403 insufficient permissions")
      ⟨"name contains report", none, some 10⟩ =
      .error ⟨500, "HttpError 403 insufficient permissions"⟩ := rfl

/-- Claim C5 as amended: every MCP tool operation in server.py catches the
failure of its external call and returns it as a textual error result
carrying the underlying message (shown for list_s3_buckets and for
run_cloudwatch_logs_query on both its submission call and its poll calls),
whereas each FastAPI endpoint in gdrive_mcp_server.py catches the failure
and re-raises it as an HTTPException with status 500 carrying the message
(shown for gdrive_search on both its credential step and its listing
call); in neither layer is a failed external call retried: after a poll
fetch raises, the fetch count stays frozen forever. -/
theorem tool_error_propagation_policy :
    (∀ e, list_s3_buckets (.error e) =
       .errorText ("Error listing S3 buckets: " ++ e)) ∧
    (∀ (sq : StartQueryRequest → Except String String)
       (fetch : Nat → Except String QueryResponse)
       (now : Int) (lg q : String) (hours : Int) (fuel : Nat) (e : String),
       sq (buildStartQueryRequest now lg q hours) = .error e →
       run_cloudwatch_logs_query sq fetch now lg q hours fuel =
         some (.errText ("Error running CloudWatch Logs query: " ++ e))) ∧
    (∀ (sq : StartQueryRequest → Except String String)
       (fetch : Nat → Except String QueryResponse)
       (now : Int) (lg q : String) (hours : Int) (fuel : Nat)
       (qid : String) (k : Nat) (e : String),
       sq (buildStartQueryRequest now lg q hours) = .ok qid →
       (∀ j, j < k → isRunning (fetch j) = true) →
       fetch k = .error e → k + 1 ≤ fuel →
       run_cloudwatch_logs_query sq fetch now lg q hours fuel =
         some (.errText ("Error running CloudWatch Logs query: " ++ e)) ∧
       (∀ n, k + 1 ≤ n → (pollRun fetch n).fetches = k + 1)) ∧
    (∀ (fl : FilesListRequest → Except String FilesListResponse)
       (req : SearchRequest) (e : String),
       gdrive_search (.error e) fl req = .error ⟨500, e⟩) ∧
    (∀ (req : SearchRequest) (lr : FilesListRequest) (e : String),
       filesListRequest req = .ok lr →
       gdrive_search (.ok ()) (fun _ => .error e) req = .error ⟨500, e⟩) := by
  refine ⟨fun e => rfl, ?_, ?_, fun fl req e => rfl, ?_⟩
  · intro sq fetch now lg q hours fuel e hsub
    simp [run_cloudwatch_logs_query, hsub]
  · intro sq fetch now lg q hours fuel qid k e hsub hrun hk hfuel
    have hkR : isRunning (fetch k) = false := by rw [hk]; rfl
    have hstate : pollRun fetch fuel = ⟨some (.error e), k + 1⟩ := by
      rw [pollRun_stops fetch k hrun hkR fuel hfuel, hk]
    have hcond : pollCond (⟨some (.error e), k + 1⟩ : PollState) = false := rfl
    constructor
    · simp only [run_cloudwatch_logs_query, hsub, hstate]
      simp [hcond]
    · intro n hn
      rw [pollRun_stops fetch k hrun hkR n hn]
  · intro req lr e hreq
    simp [gdrive_search, hreq]

/-- Claim C5 amended witness: concretely, a submission that polls Running
once and then hits a raised ThrottlingException returns the tool error
text after exactly 2 fetches, and the fetch count is still 2 after 9
opportunities — the failed call is never retried. -/
theorem tool_error_propagation_witness :
    run_cloudwatch_logs_query submitOk fetchThrottle 0 "group" "fields x" 24 5 =
      some (.errText ("Error running CloudWatch Logs query: " ++ "ThrottlingException")) ∧
    (pollRun fetchThrottle 9).fetches = 2 := by
  have h := tool_error_propagation_policy.2.2.1 submitOk fetchThrottle 0 "group"
    "fields x" 24 5 "query-id" 1 "ThrottlingException" rfl (by decide) rfl (by decide)
  exact ⟨h.1, h.2 9 (by decide)⟩

end McpDevop
